import Mathlib

/-!
Verification development for the diff2html-cli core (`src/cli.ts`).

Strings are modelled as lists of characters (`Str`).  The template
substitution of `prepareHTML`, the git argument construction of
`generateGitDiffArgs`, the output formatting of `getOutput` and the remote
publishing of `postToDiffy` are embedded as executable Lean functions.
External collaborators (file system, diff parser, HTML renderer, HTTP
client, JSON serialisation) are passed in as function parameters, so the
theorems quantify over their behaviour.
-/

set_option maxHeartbeats 4000000
set_option maxRecDepth 8000

namespace Diff2HtmlCli

/-- Strings, modelled as lists of characters. -/
abbrev Str := List Char

/-- Conversion from Lean string literals to the character-list model. -/
def str (s : String) : Str := s.data

/-- Does `s` begin with `p`? (exact character-by-character comparison) -/
def startsWith : Str → Str → Bool
  | _, [] => true
  | [], _ :: _ => false
  | c :: cs, q :: qs => c == q && startsWith cs qs

/-- Does `s` contain `p` as a contiguous substring? -/
def containsSub (p : Str) : Str → Bool
  | [] => startsWith [] p
  | c :: cs => startsWith (c :: cs) p || containsSub p cs

/-- Modelled from the spec: `utils.replaceExactly` (the file `src/utils.ts`
is not part of this snapshot; only its caller `src/cli.ts` is).  Per the
spec, substitution "must use exact-string replacement (not regex-style
matching)", each table entry "replacing exactly one literal marker
occurrence in the document", the replacement value inserted verbatim.
This is the semantics of JavaScript `value.replace(search, () => rep)`
with a plain-string search value: the first literal occurrence of `pat`
in `doc` is replaced by `rep`, with no pattern expansion. -/
def replaceExactly (doc pat rep : Str) : Str :=
  match doc with
  | [] => if startsWith [] pat then rep else []
  | c :: cs =>
    if startsWith (c :: cs) pat then rep ++ (c :: cs).drop pat.length
    else c :: replaceExactly cs pat rep

/-! ### Constants from `src/cli.ts` -/

def lightGitHubTheme : Str :=
  str "<link rel=\"stylesheet\" href=\"https://cdnjs.cloudflare.com/ajax/libs/highlight.js/11.9.0/styles/github.min.css\" />"

def darkGitHubTheme : Str :=
  str "<link rel=\"stylesheet\" href=\"https://cdnjs.cloudflare.com/ajax/libs/highlight.js/11.9.0/styles/github-dark.min.css\" />"

def autoGitHubTheme : Str :=
  str "<link rel=\"stylesheet\" href=\"https://cdnjs.cloudflare.com/ajax/libs/highlight.js/11.9.0/styles/github.min.css\" media=\"screen and (prefers-color-scheme: light)\" />\n<link rel=\"stylesheet\" href=\"https://cdnjs.cloudflare.com/ajax/libs/highlight.js/11.9.0/styles/github-dark.min.css\" media=\"screen and (prefers-color-scheme: dark)\" />"

def lightBaseStyle : Str :=
  str "<style>\nbody \x7b\n  background-color: var(--d2h-bg-color);\n\x7d\nh1 \x7b\n  color: var(--d2h-light-color);\n\x7d\n</style>"

def darkBaseStyle : Str :=
  str "<style>\nbody \x7b\n  background-color: rgb(13, 17, 23);\n\x7d\nh1 \x7b\n  color: var(--d2h-dark-color);\n\x7d\n</style>"

def autoBaseStyle : Str :=
  str "<style>\n@media screen and (prefers-color-scheme: light) \x7b\n  body \x7b\n    background-color: var(--d2h-bg-color);\n  \x7d\n  h1 \x7b\n    color: var(--d2h-light-color);\n  \x7d\n\x7d\n@media screen and (prefers-color-scheme: dark) \x7b\n  body \x7b\n    background-color: rgb(13, 17, 23);\n  \x7d\n  h1 \x7b\n    color: var(--d2h-dark-color);\n  \x7d\n\x7d\n</style>"

/-! ### Data model -/

/-- `ColorSchemeType` of diff2html: `light`, `dark` or `auto`. -/
inductive ColorScheme
  | light
  | dark
  | auto
deriving DecidableEq

/-- Output format tag of the CLI configuration: `html` or `json`. -/
inductive FormatType
  | html
  | json
deriving DecidableEq

/-- The slice of the CLI `Configuration` read by `src/cli.ts`
(the full record lives in `src/types.ts`, outside this snapshot; the
fields and their types are taken from their uses in `src/cli.ts` and from
the Configuration description in the spec).  `htmlWrapperTemplate` is
`none` when no template path is configured. -/
structure Configuration where
  htmlWrapperTemplate : Option Str
  pageTitle : Str
  pageHeader : Str
  commitMessage : Str
  showFilesOpen : Bool
  fileContentToggle : Bool
  synchronisedScroll : Bool
  highlightCode : Bool
  formatType : FormatType

/-- The slice of `Diff2HtmlConfig` options read by `src/cli.ts`
(`options.colorScheme`); the remaining options are only handed to the
external parser and renderer, which the theorems quantify over. -/
structure Diff2HtmlOptions where
  colorScheme : Option ColorScheme

/-! ### `prepareHTML` -/

/-- The `gitHubTheme` ternary of `prepareHTML`:
`colorScheme === light ? ... : colorScheme === dark ? ... : auto...`. -/
def selectGitHubTheme (colorScheme : Option ColorScheme) : Str :=
  if colorScheme = some ColorScheme.light then lightGitHubTheme
  else if colorScheme = some ColorScheme.dark then darkGitHubTheme
  else autoGitHubTheme

/-- The `baseStyle` ternary of `prepareHTML`, same shape as the theme one. -/
def selectBaseStyle (colorScheme : Option ColorScheme) : Str :=
  if colorScheme = some ColorScheme.light then lightBaseStyle
  else if colorScheme = some ColorScheme.dark then darkBaseStyle
  else autoBaseStyle

/-- JavaScript template interpolation of a boolean (`${b}`). -/
def boolStr (b : Bool) : Str := if b then str "true" else str "false"

def titleMarker : Str := str "<!--diff2html-title-->"

def cssMarker : Str := str "<!--diff2html-css-->"

def jsUiMarker : Str := str "<!--diff2html-js-ui-->"

def fileListToggleMarker : Str := str "//diff2html-fileListToggle"

def fileContentToggleMarker : Str := str "//diff2html-fileContentToggle"

def synchronisedScrollMarker : Str := str "//diff2html-synchronisedScroll"

def highlightCodeMarker : Str := str "//diff2html-highlightCode"

def headerMarker : Str := str "<!--diff2html-header-->"

def diffMarker : Str := str "<!--diff2html-diff-->"

def commitMessageMarker : Str := str "<!--diff2html-commit-message-->"

/-- The ten known marker literals, in substitution order. -/
def markersList : List Str :=
  [titleMarker, cssMarker, jsUiMarker, fileListToggleMarker,
    fileContentToggleMarker, synchronisedScrollMarker, highlightCodeMarker,
    headerMarker, diffMarker, commitMessageMarker]

/-- The ordered substitution table of `prepareHTML`
(`searchValue`/`replaceValue` pairs), exactly as built in `src/cli.ts`.
`cssContent` and `jsUiContent` stand for the two asset files read from the
installed diff2html distribution. -/
def replacements (diffHTMLContent : Str) (config : Configuration)
    (colorScheme : Option ColorScheme) (cssContent jsUiContent : Str) :
    List (Str × Str) :=
  [ (titleMarker, config.pageTitle),
    (cssMarker,
      selectBaseStyle colorScheme ++ str "\n" ++ selectGitHubTheme colorScheme
        ++ str "\n<style>\n" ++ cssContent ++ str "\n</style>"),
    (jsUiMarker, str "<script>\n" ++ jsUiContent ++ str "\n</script>"),
    (fileListToggleMarker,
      str "diff2htmlUi.fileListToggle(" ++ boolStr config.showFilesOpen ++ str ");"),
    (fileContentToggleMarker,
      if config.fileContentToggle then str "diff2htmlUi.fileContentToggle();" else str ""),
    (synchronisedScrollMarker,
      if config.synchronisedScroll then str "diff2htmlUi.synchronisedScroll();" else str ""),
    (highlightCodeMarker,
      if config.highlightCode then str "diff2htmlUi.highlightCode();" else str ""),
    (headerMarker, config.pageHeader),
    (diffMarker, diffHTMLContent),
    (commitMessageMarker, config.commitMessage) ]

/-- One step of the `reduce` in `prepareHTML`. -/
def applyReplacement (doc : Str) (replacement : Str × Str) : Str :=
  replaceExactly doc replacement.1 replacement.2

/-- `prepareHTML` of `src/cli.ts`: fold the substitution table over the
template document.  The template contents and the two asset payloads are
parameters (the source reads them from disk). -/
def prepareHTML (template diffHTMLContent : Str) (config : Configuration)
    (colorScheme : Option ColorScheme) (cssContent jsUiContent : Str) : Str :=
  List.foldl applyReplacement template
    (replacements diffHTMLContent config colorScheme cssContent jsUiContent)

/-! ### Splicing a substitution table through a segmented template

`spliceTemplate rules ts` is the document `m1 ++ t1 ++ m2 ++ t2 ++ ...`
containing the marker of each rule once, in table order, separated by the
segments `ts`; `spliceResult` is the same shape with each marker replaced
by the replacement value of its rule.  `spliceOK acc rules ts` is the
decidable first-occurrence condition under which the fold of
`replaceExactly` maps one document to the other. -/

def spliceTemplate : List (Str × Str) → List Str → Str
  | [], _ => []
  | (m, _) :: rs, ts => m ++ (ts.headD [] ++ spliceTemplate rs ts.tail)

def spliceResult : List (Str × Str) → List Str → Str
  | [], _ => []
  | (_, v) :: rs, ts => v ++ (ts.headD [] ++ spliceResult rs ts.tail)

def spliceOK : Str → List (Str × Str) → List Str → Bool
  | _, [], _ => true
  | acc, (m, v) :: rs, ts =>
    !containsSub m (acc ++ m.dropLast)
      && spliceOK (acc ++ (v ++ ts.headD [])) rs ts.tail

/-! ### `generateGitDiffArgs` -/

/-- `const defaultArgs = [-M, -C, HEAD];` -/
def defaultArgs : List Str := [str "-M", str "-C", str "HEAD"]

/-- The exclude pathspec entry built per ignored path: `:(exclude)${path}`. -/
def excludePathspec (p : Str) : Str := str ":(exclude)" ++ p

/-- `generateGitDiffArgs` of `src/cli.ts`, with each conditional `push`
rendered as a conditional append, in source order. -/
def generateGitDiffArgs (gitArgsArr ignore : List Str) : List Str :=
  let a1 : List Str := [str "diff"]
  let a2 := if gitArgsArr.contains (str "--no-color") then a1 else a1 ++ [str "--no-color"]
  let a3 := if gitArgsArr.length = 0 then a2 ++ defaultArgs else a2
  let a4 := a3 ++ gitArgsArr
  if 0 < ignore.length then
    (if gitArgsArr.contains (str "--") then a4 else a4 ++ [str "--"])
      ++ ignore.map excludePathspec
  else a4

/-! ### `getOutput` -/

/-- The error message thrown for a missing template:
`Template (${path}) not found!` with the path quoted. -/
def templateNotFoundMessage (tpl : Str) : Str :=
  str "Template (\x27" ++ tpl ++ str "\x27) not found!"

/-- JavaScript truthiness of the configured template path. -/
def optTruthy : Option Str → Bool
  | none => false
  | some s => !s.isEmpty

/-- The string value of the configured template path (`[]` when unset). -/
def optValue : Option Str → Str
  | none => []
  | some s => s

/-- Result of `getOutput`: the returned string or the thrown error
message, together with the process exit code if one was set. -/
structure GetOutputOutcome where
  result : Except Str Str
  exitCode : Option Nat

/-- `getOutput` of `src/cli.ts` over an abstract diff-model type `J`.
`fsExists` models `fs.existsSync`, `readFile` models `utils.readFile`
(used for the template), `parse` and `renderHtml` model the external
diff2html `parse` and `html`, `stringify` models `JSON.stringify`. -/
def getOutput {J : Type} (fsExists : Str → Bool) (readFile : Str → Str)
    (parse : Str → Diff2HtmlOptions → J) (renderHtml : J → Diff2HtmlOptions → Str)
    (stringify : J → Str) (cssContent jsUiContent : Str)
    (options : Diff2HtmlOptions) (config : Configuration) (input : Str) :
    GetOutputOutcome :=
  if optTruthy config.htmlWrapperTemplate
      && !fsExists (optValue config.htmlWrapperTemplate) then
    ⟨Except.error (templateNotFoundMessage (optValue config.htmlWrapperTemplate)),
      some 4⟩
  else
    let diffJson := parse input options
    match config.formatType with
    | FormatType.html =>
      ⟨Except.ok (prepareHTML (readFile (optValue config.htmlWrapperTemplate))
          (renderHtml diffJson options) config options.colorScheme
          cssContent jsUiContent),
        none⟩
    | FormatType.json => ⟨Except.ok (stringify diffJson), none⟩

/-! ### `postToDiffy` -/

/-- Modelled from the spec: the publish output modes of `DiffyType`
(`src/types.ts` is outside this snapshot) — open in browser, copy to
clipboard, or print only. -/
inductive DiffyType
  | browser
  | pbcopy
  | print

/-- Shape of the parsed JSON response of the diffy.org endpoint, as
duck-typed by `isCreateDiffResponse` and `isApiError`: an optional `id`
field and an optional `error` field. -/
structure DiffyResponse where
  id : Option Str
  error : Option Str

/-- Side effects `postToDiffy` can perform after success. -/
inductive DiffyEffect
  | openBrowser (url : Str)
  | copyClipboard (url : Str)

/-- Result of `postToDiffy`: the returned URL or thrown error message,
the lines printed, and the browser/clipboard effects. -/
structure DiffyOutcome where
  result : Except Str Str
  logs : List Str
  effects : List DiffyEffect

def diffyUrlBase : Str := str "https://diffy.org/diff/"

/-- Prefix of the diagnostic thrown when the response has neither `id`
nor `error`. -/
def diffyDiagPrefix : Str :=
  str "Could not find \x27id\x27 of created diff in the response json.\nBody:\n\n"

def diffyDiagnosticMsg (body : Str) : Str := diffyDiagPrefix ++ body

/-- `postToDiffy` of `src/cli.ts`.  `put` models the `put` of the HTTP
client returning the parsed response; `stringifyResponse` models
`JSON.stringify(response, null, 2)`. -/
def postToDiffy (put : Str → DiffyResponse)
    (stringifyResponse : DiffyResponse → Str) (diff : Str)
    (diffyOutput : DiffyType) : DiffyOutcome :=
  let response := put diff
  match response.id with
  | some i =>
    let url := diffyUrlBase ++ i
    ⟨Except.ok url,
      [str "Link powered by https://diffy.org", url],
      match diffyOutput with
      | DiffyType.browser => [DiffyEffect.openBrowser url]
      | DiffyType.pbcopy => [DiffyEffect.copyClipboard url]
      | DiffyType.print => []⟩
  | none =>
    match response.error with
    | some e => ⟨Except.error e, [], []⟩
    | none =>
      ⟨Except.error (diffyDiagnosticMsg (stringifyResponse response)), [], []⟩

/-! ### Concrete inputs used by witnesses and counterexamples -/

/-- A template containing all ten markers once, in substitution order. -/
def cexTemplate : Str :=
  titleMarker ++ cssMarker ++ jsUiMarker ++ fileListToggleMarker
    ++ fileContentToggleMarker ++ synchronisedScrollMarker ++ highlightCodeMarker
    ++ headerMarker ++ diffMarker ++ commitMessageMarker

/-- A configuration whose page title is itself the commit-message marker. -/
def cexConfig : Configuration :=
  ⟨none, commitMessageMarker, str "H", str "M", true, true, true, true,
    FormatType.html⟩

def wT0 : Str := str "<html>"

/-- A configuration with replacement values containing `$&` and `$1`. -/
def wConfig : Configuration :=
  ⟨none, str "title $& $1", str "header $&", str "commit $1", true, true, true,
    true, FormatType.html⟩

def wTable : List (Str × Str) :=
  replacements (str "<d>$&</d>") wConfig (some ColorScheme.light)
    (str "css-$1") (str "js-$&")

def wSegs : List Str :=
  [str "|1|", str "|2|", str "|3|", str "|4|", str "|5|", str "|6|", str "|7|",
    str "|8|", str "|9|", str "</html>"]

def wTemplate : Str := wT0 ++ spliceTemplate wTable wSegs

def wResult : Str := wT0 ++ spliceResult wTable wSegs

/-! ### Library lemmas on the string model -/

theorem startsWith_append (p u : Str) : startsWith (p ++ u) p = true := by
  induction p with
  | nil => cases u <;> rfl
  | cons c cs ih => simp [startsWith, ih]

theorem containsSub_startsWith {p s : Str} (h : startsWith s p = true) :
    containsSub p s = true := by
  cases s with
  | nil => exact h
  | cons c cs => simp [containsSub, h]

theorem containsSub_nil_pat (s : Str) : containsSub ([] : Str) s = true := by
  cases s with
  | nil => rfl
  | cons c cs => simp [containsSub, startsWith]

theorem containsSub_splice (p x y : Str) : containsSub p (x ++ (p ++ y)) = true := by
  induction x with
  | nil => simpa using containsSub_startsWith (startsWith_append p y)
  | cons c cs ih => simp [containsSub, ih]

theorem containsSub_append_left (p : Str) (x : Str) {s : Str}
    (h : containsSub p s = true) : containsSub p (x ++ s) = true := by
  induction x with
  | nil => exact h
  | cons c cs ih => simp [containsSub, ih]

theorem containsSub_self_append (p y : Str) : containsSub p (p ++ y) = true :=
  containsSub_startsWith (startsWith_append p y)

theorem drop_len_append (p b : Str) : (p ++ b).drop p.length = b := by
  induction p with
  | nil => simp
  | cons c cs ih => simp [ih]

theorem replaceExactly_of_startsWith {doc pat : Str} (rep : Str)
    (h : startsWith doc pat = true) :
    replaceExactly doc pat rep = rep ++ doc.drop pat.length := by
  cases doc with
  | nil =>
    cases pat with
    | nil => simp [replaceExactly, startsWith]
    | cons q qs => exact absurd h (by simp [startsWith])
  | cons c cs => simp [replaceExactly, h]

theorem replaceExactly_of_not_contains {doc pat : Str} (rep : Str)
    (h : containsSub pat doc = false) : replaceExactly doc pat rep = doc := by
  induction doc with
  | nil =>
    simp only [containsSub] at h
    simp [replaceExactly, h]
  | cons c cs ih =>
    simp only [containsSub, Bool.or_eq_false_iff] at h
    simp [replaceExactly, h.1, ih h.2]

theorem startsWith_of_le {p : Str} : ∀ {x : Str} (u : Str),
    startsWith (x ++ u) p = true → p.length ≤ x.length → startsWith x p = true := by
  induction p with
  | nil => intro x u _ _; cases x <;> rfl
  | cons q qs ih =>
    intro x u h hl
    cases x with
    | nil => simp at hl
    | cons c cs =>
      simp only [List.cons_append, startsWith, Bool.and_eq_true] at h
      have hl' : qs.length ≤ cs.length := by simp at hl; omega
      simp [startsWith, h.1, ih u h.2 hl']

/-- Key splicing lemma: if the pattern `p` has no occurrence beginning
strictly before the designated one, replacing it splices the replacement
exactly there. -/
theorem replaceExactly_splice (p : Str) : ∀ (a : Str) (b rep : Str),
    containsSub p (a ++ p.dropLast) = false →
    replaceExactly (a ++ (p ++ b)) p rep = a ++ (rep ++ b) := by
  rcases List.eq_nil_or_concat p with rfl | ⟨q, d, hp⟩
  · intro a b rep h
    rw [containsSub_nil_pat] at h
    exact absurd h (by simp)
  · rw [List.concat_eq_append] at hp
    subst hp
    intro a
    induction a with
    | nil =>
      intro b rep _
      simp only [List.nil_append]
      rw [replaceExactly_of_startsWith rep (startsWith_append (q ++ [d]) b),
        drop_len_append]
    | cons c a' ih =>
      intro b rep h
      rw [List.dropLast_concat] at h
      simp only [List.cons_append, containsSub, Bool.or_eq_false_iff] at h
      obtain ⟨h1, h2⟩ := h
      have hcond : startsWith (c :: (a' ++ ((q ++ [d]) ++ b))) (q ++ [d]) = false := by
        cases hx : startsWith (c :: (a' ++ ((q ++ [d]) ++ b))) (q ++ [d]) with
        | false => rfl
        | true =>
          exfalso
          have hshape : c :: (a' ++ ((q ++ [d]) ++ b))
              = (c :: (a' ++ q)) ++ (d :: b) := by
            simp [List.append_assoc]
          rw [hshape] at hx
          have hlen : (q ++ [d]).length ≤ (c :: (a' ++ q)).length := by
            simp
          have hx' := startsWith_of_le (d :: b) hx hlen
          have h1' : startsWith (c :: (a' ++ q)) (q ++ [d]) = false := h1
          rw [hx'] at h1'
          exact Bool.true_eq_false.mp h1'
      have hgoal : (c :: a') ++ ((q ++ [d]) ++ b) = c :: (a' ++ ((q ++ [d]) ++ b)) := by
        simp
      rw [hgoal]
      have ih' := ih b rep (by rw [List.dropLast_concat]; exact h2)
      simp only [replaceExactly, hcond, Bool.false_eq_true, if_false, ih']
      simp

/-- Folding the substitution table over a segmented template splices every
replacement value into place, provided the first-occurrence condition
`spliceOK` holds. -/
theorem foldl_splice (rules : List (Str × Str)) :
    ∀ (ts : List Str) (acc : Str), spliceOK acc rules ts = true →
      List.foldl applyReplacement (acc ++ spliceTemplate rules ts) rules
        = acc ++ spliceResult rules ts := by
  induction rules with
  | nil =>
    intro ts acc _
    simp [spliceTemplate, spliceResult]
  | cons r rs ih =>
    obtain ⟨m, v⟩ := r
    intro ts acc h
    simp only [spliceOK, Bool.and_eq_true, Bool.not_eq_true'] at h
    obtain ⟨h1, h2⟩ := h
    simp only [spliceTemplate, spliceResult, List.foldl_cons]
    have happ : applyReplacement (acc ++ (m ++ (ts.headD [] ++ spliceTemplate rs ts.tail))) (m, v)
        = replaceExactly (acc ++ (m ++ (ts.headD [] ++ spliceTemplate rs ts.tail))) m v := rfl
    rw [happ, replaceExactly_splice m acc (ts.headD [] ++ spliceTemplate rs ts.tail) v h1]
    have ihr := ih ts.tail (acc ++ (v ++ ts.headD [])) h2
    simp only [List.append_assoc] at ihr ⊢
    exact ihr

/-- A substitution step whose marker does not occur in the document is a
no-op, whatever its replacement value. -/
theorem applyReplacement_no_match (doc m : Str) {v : Str}
    (h : containsSub m doc = false) : applyReplacement doc (m, v) = doc :=
  replaceExactly_of_not_contains v h

/-- A run of substitution steps none of whose markers occur in the
document is a no-op. -/
theorem foldl_no_match (doc : Str) : ∀ (rules : List (Str × Str)) (ms : List Str),
    List.map Prod.fst rules = ms →
    (ms.all fun m => !containsSub m doc) = true →
    List.foldl applyReplacement doc rules = doc := by
  intro rules
  induction rules with
  | nil => intro ms _ _; rfl
  | cons r rs ih =>
    intro ms hms hall
    obtain ⟨m, v⟩ := r
    subst hms
    simp only [List.map_cons, List.all_cons, Bool.and_eq_true,
      Bool.not_eq_true'] at hall
    rw [List.foldl_cons, applyReplacement_no_match doc m hall.1]
    exact ih _ rfl hall.2

/-! ### Counting lemmas for `generateGitDiffArgs` -/

theorem excludePathspec_ne (x : Str) (hx : x.head? ≠ some ':') (p : Str) :
    excludePathspec p ≠ x := by
  intro h
  apply hx
  rw [← h]
  rfl

theorem count_map_excludePathspec (x : Str) (hx : x.head? ≠ some ':')
    (ig : List Str) : List.count x (ig.map excludePathspec) = 0 := by
  rw [List.count_eq_zero]
  intro hmem
  obtain ⟨p, _, hp⟩ := List.mem_map.mp hmem
  exact excludePathspec_ne x hx p hp

/-- Occurrence counting through `generateGitDiffArgs`, for any token that
is not an exclude pathspec entry. -/
theorem count_generateGitDiffArgs (x : Str) (g ig : List Str)
    (hx : x.head? ≠ some ':') :
    List.count x (generateGitDiffArgs g ig)
      = List.count x [str "diff"]
        + (if g.contains (str "--no-color") then 0 else List.count x [str "--no-color"])
        + (if g.length = 0 then List.count x defaultArgs else 0)
        + List.count x g
        + (if 0 < ig.length ∧ ¬ g.contains (str "--") = true
            then List.count x [str "--"] else 0) := by
  have hmap := count_map_excludePathspec x hx ig
  simp only [generateGitDiffArgs]
  by_cases h1 : str "--no-color" ∈ g <;>
    by_cases h2 : g.length = 0 <;>
      by_cases h3 : 0 < ig.length <;>
        by_cases h4 : str "--" ∈ g <;>
          simp [h1, h2, h3, h4, List.count_append, List.count_cons,
            List.count_nil, defaultArgs, hmap] <;>
            omega

/-! ### Claim C2 -/

/-- Claim C2: for every options, configuration and input text, if the
configured `htmlWrapperTemplate` is set and the file at that path does not
exist, `getOutput` sets the process exit code to 4 and throws the
template-not-found error before invoking the parser: the outcome is the
same for every parser, renderer and serialiser (no parsing or rendering
work contributes), and no partial output is produced. -/
theorem getOutput_missing_template {J K : Type} (fs : Str → Bool)
    (rf : Str → Str) (parse : Str → Diff2HtmlOptions → J)
    (render : J → Diff2HtmlOptions → Str) (stringify : J → Str)
    (rf2 : Str → Str) (parse2 : Str → Diff2HtmlOptions → K)
    (render2 : K → Diff2HtmlOptions → Str) (stringify2 : K → Str)
    (css js css2 js2 : Str) (opts : Diff2HtmlOptions) (cfg : Configuration)
    (input input2 : Str) (tpl : Str)
    (h1 : cfg.htmlWrapperTemplate = some tpl) (h2 : tpl ≠ [])
    (h3 : fs tpl = false) :
    getOutput fs rf parse render stringify css js opts cfg input
      = ⟨Except.error (templateNotFoundMessage tpl), some 4⟩
    ∧ getOutput fs rf parse render stringify css js opts cfg input
      = getOutput fs rf2 parse2 render2 stringify2 css2 js2 opts cfg input2 := by
  obtain ⟨c, cs, rfl⟩ : ∃ c cs, tpl = c :: cs := by
    cases tpl with
    | nil => exact absurd rfl h2
    | cons c cs => exact ⟨c, cs, rfl⟩
  have key : ∀ {L : Type} (rf3 : Str → Str) (parse3 : Str → Diff2HtmlOptions → L)
      (render3 : L → Diff2HtmlOptions → Str) (stringify3 : L → Str)
      (css3 js3 input3 : Str),
      getOutput fs rf3 parse3 render3 stringify3 css3 js3 opts cfg input3
        = ⟨Except.error (templateNotFoundMessage (c :: cs)), some 4⟩ := by
    intro L rf3 parse3 render3 stringify3 css3 js3 input3
    simp [getOutput, h1, optTruthy, optValue, h3]
  exact ⟨key rf parse render stringify css js input,
    (key rf parse render stringify css js input).trans
      (key rf2 parse2 render2 stringify2 css2 js2 input2).symm⟩

/-- Witness for claim C2 at a concrete missing template path. -/
theorem getOutput_missing_template_witness :
    @getOutput Unit (fun _ => false) (fun _ => []) (fun _ _ => ())
        (fun _ _ => []) (fun _ => []) [] [] ⟨none⟩
        ⟨some (str "template.html"), [], [], [], true, true, true, true,
          FormatType.html⟩ []
      = ⟨Except.error (templateNotFoundMessage (str "template.html")), some 4⟩ := by
  exact (getOutput_missing_template (fun _ => false) (fun _ => [])
    (fun _ _ => ()) (fun _ _ => []) (fun _ => []) (fun _ => [])
    (fun _ _ => ()) (fun _ _ => []) (fun _ => []) [] [] [] [] ⟨none⟩
    ⟨some (str "template.html"), [], [], [], true, true, true, true,
      FormatType.html⟩ [] [] (str "template.html") rfl (by decide) rfl).1

/-! ### Claim C10 -/

/-- Claim C10: the missing-template guard applies before the format
switch, so with `formatType = json` — whose output path never uses the
template — `getOutput` still sets exit code 4 and throws. -/
theorem getOutput_missing_template_json {J : Type} (fs : Str → Bool)
    (rf : Str → Str) (parse : Str → Diff2HtmlOptions → J)
    (render : J → Diff2HtmlOptions → Str) (stringify : J → Str)
    (css js : Str) (opts : Diff2HtmlOptions) (cfg : Configuration)
    (input : Str) (tpl : Str)
    (h1 : cfg.htmlWrapperTemplate = some tpl) (h2 : tpl ≠ [])
    (h3 : fs tpl = false) (_h4 : cfg.formatType = FormatType.json) :
    getOutput fs rf parse render stringify css js opts cfg input
      = ⟨Except.error (templateNotFoundMessage tpl), some 4⟩ := by
  obtain ⟨c, cs, rfl⟩ : ∃ c cs, tpl = c :: cs := by
    cases tpl with
    | nil => exact absurd rfl h2
    | cons c cs => exact ⟨c, cs, rfl⟩
  simp [getOutput, h1, optTruthy, optValue, h3]

/-- Witness for claim C10 with a json-format configuration. -/
theorem getOutput_missing_template_json_witness :
    @getOutput Unit (fun _ => false) (fun _ => []) (fun _ _ => ())
        (fun _ _ => []) (fun _ => []) [] [] ⟨none⟩
        ⟨some (str "template.html"), [], [], [], true, true, true, true,
          FormatType.json⟩ []
      = ⟨Except.error (templateNotFoundMessage (str "template.html")), some 4⟩ := by
  exact getOutput_missing_template_json (fun _ => false) (fun _ => [])
    (fun _ _ => ()) (fun _ _ => []) (fun _ => []) [] [] ⟨none⟩
    ⟨some (str "template.html"), [], [], [], true, true, true, true,
      FormatType.json⟩ [] (str "template.html") rfl (by decide) rfl rfl

/-! ### Claim C6 -/

/-- Claim C6: for every diff text and every output mode, if the remote
response has an `id` field with value `i`, `postToDiffy` returns the
string `https://diffy.org/diff/` followed by `i`, and the returned URL is
the same regardless of the output mode chosen. -/
theorem postToDiffy_success_url (put : Str → DiffyResponse)
    (sr : DiffyResponse → Str) (diff i : Str) (mode mode2 : DiffyType)
    (h : (put diff).id = some i) :
    (postToDiffy put sr diff mode).result = Except.ok (diffyUrlBase ++ i)
    ∧ (postToDiffy put sr diff mode).result
        = (postToDiffy put sr diff mode2).result := by
  constructor
  · simp [postToDiffy, h]
  · simp [postToDiffy, h]

/-- Witness for claim C6: response `id = abc123` yields
`https://diffy.org/diff/abc123`. -/
theorem postToDiffy_success_url_witness :
    (postToDiffy (fun _ => ⟨some (str "abc123"), none⟩) (fun _ => [])
        (str "d") DiffyType.print).result
      = Except.ok (str "https://diffy.org/diff/abc123") := by
  exact (postToDiffy_success_url (fun _ => ⟨some (str "abc123"), none⟩)
    (fun _ => []) (str "d") (str "abc123") DiffyType.print DiffyType.print
    rfl).1

/-! ### Claim C7 -/

/-- Claim C7: for every remote response without an `id` field, if the
response has an `error` field `postToDiffy` throws exactly that message;
if it has neither `id` nor `error`, it throws a message containing the
stringified response body. -/
theorem postToDiffy_error_paths (put : Str → DiffyResponse)
    (sr : DiffyResponse → Str) (diff : Str) (mode : DiffyType)
    (h : (put diff).id = none) :
    (∀ e, (put diff).error = some e →
      (postToDiffy put sr diff mode).result = Except.error e)
    ∧ ((put diff).error = none →
      (postToDiffy put sr diff mode).result
          = Except.error (diffyDiagnosticMsg (sr (put diff)))
        ∧ containsSub (sr (put diff))
            (diffyDiagnosticMsg (sr (put diff))) = true) := by
  refine ⟨?_, ?_⟩
  · intro e he
    simp [postToDiffy, h, he]
  · intro he
    refine ⟨by simp [postToDiffy, h, he], ?_⟩
    have hs := containsSub_splice (sr (put diff)) diffyDiagPrefix []
    simpa [diffyDiagnosticMsg] using hs

/-- Witness for claim C7: response with `error = too large` throws `too
large`; the empty response throws the diagnostic containing the
stringified empty body. -/
theorem postToDiffy_error_paths_witness :
    (postToDiffy (fun _ => ⟨none, some (str "too large")⟩)
        (fun _ => str "\x7b\x7d") (str "d") DiffyType.print).result
      = Except.error (str "too large")
    ∧ (postToDiffy (fun _ => ⟨none, none⟩) (fun _ => str "\x7b\x7d")
        (str "d") DiffyType.print).result
      = Except.error (diffyDiagnosticMsg (str "\x7b\x7d")) := by
  constructor
  · exact (postToDiffy_error_paths (fun _ => ⟨none, some (str "too large")⟩)
      (fun _ => str "\x7b\x7d") (str "d") DiffyType.print rfl).1
      (str "too large") rfl
  · exact ((postToDiffy_error_paths (fun _ => ⟨none, none⟩)
      (fun _ => str "\x7b\x7d") (str "d") DiffyType.print rfl).2 rfl).1

/-! ### Claim C8 -/

/-- Claim C8: when `colorScheme` is unset, `prepareHTML` selects the
`auto` theme stylesheet-link fragment and the `auto` inline base-style
block — the same fragments as for an explicit `auto` — and unset is not
an error: the whole substitution coincides with the explicit-`auto` one. -/
theorem prepareHTML_colorScheme_default_auto (template d css js : Str)
    (cfg : Configuration) :
    selectGitHubTheme none = autoGitHubTheme
    ∧ selectBaseStyle none = autoBaseStyle
    ∧ selectGitHubTheme none = selectGitHubTheme (some ColorScheme.auto)
    ∧ selectBaseStyle none = selectBaseStyle (some ColorScheme.auto)
    ∧ prepareHTML template d cfg none css js
        = prepareHTML template d cfg (some ColorScheme.auto) css js :=
  ⟨rfl, rfl, rfl, rfl, rfl⟩

/-! ### Claim C9 -/

/-- Claim C9: the file-list-toggle marker is always replaced by
`diff2htmlUi.fileListToggle(<flag>);` carrying the boolean flag (emitted
even when the flag is false), whereas each of the file-content-toggle,
synchronised-scroll and highlight-code markers is replaced by its
UI-initialisation call only when its flag is set and by the empty string
otherwise — stated both on the substitution table and on the behaviour of
`prepareHTML` on a template consisting of the respective marker. -/
theorem prepareHTML_toggle_markers (d css js : Str) (cfg : Configuration)
    (cs : Option ColorScheme) :
    ((replacements d cfg cs css js)[3]?
        = some (fileListToggleMarker,
          str "diff2htmlUi.fileListToggle(" ++ boolStr cfg.showFilesOpen ++ str ");"))
    ∧ ((replacements d cfg cs css js)[4]?
        = some (fileContentToggleMarker,
          if cfg.fileContentToggle then str "diff2htmlUi.fileContentToggle();" else str ""))
    ∧ ((replacements d cfg cs css js)[5]?
        = some (synchronisedScrollMarker,
          if cfg.synchronisedScroll then str "diff2htmlUi.synchronisedScroll();" else str ""))
    ∧ ((replacements d cfg cs css js)[6]?
        = some (highlightCodeMarker,
          if cfg.highlightCode then str "diff2htmlUi.highlightCode();" else str ""))
    ∧ prepareHTML fileListToggleMarker d cfg cs css js
        = str "diff2htmlUi.fileListToggle(" ++ boolStr cfg.showFilesOpen ++ str ");"
    ∧ prepareHTML fileContentToggleMarker d cfg cs css js
        = (if cfg.fileContentToggle then str "diff2htmlUi.fileContentToggle();" else str "")
    ∧ prepareHTML synchronisedScrollMarker d cfg cs css js
        = (if cfg.synchronisedScroll then str "diff2htmlUi.synchronisedScroll();" else str "")
    ∧ prepareHTML highlightCodeMarker d cfg cs css js
        = (if cfg.highlightCode then str "diff2htmlUi.highlightCode();" else str "") := by
  refine ⟨rfl, rfl, rfl, rfl, ?_, ?_, ?_, ?_⟩
  · cases hb : cfg.showFilesOpen with
    | false =>
      simp only [prepareHTML, replacements, hb]
      rw [List.foldl_cons,
        applyReplacement_no_match fileListToggleMarker titleMarker (by decide),
        List.foldl_cons,
        applyReplacement_no_match fileListToggleMarker cssMarker (by decide),
        List.foldl_cons,
        applyReplacement_no_match fileListToggleMarker jsUiMarker (by decide),
        List.foldl_cons]
      rw [show applyReplacement fileListToggleMarker (fileListToggleMarker,
            str "diff2htmlUi.fileListToggle(" ++ boolStr false ++ str ");")
          = str "diff2htmlUi.fileListToggle(false);" from by decide]
      rw [foldl_no_match (str "diff2htmlUi.fileListToggle(false);") _
        [fileContentToggleMarker, synchronisedScrollMarker, highlightCodeMarker,
          headerMarker, diffMarker, commitMessageMarker] ?hm1 ?hc1] <;> rfl
    | true =>
      simp only [prepareHTML, replacements, hb]
      rw [List.foldl_cons,
        applyReplacement_no_match fileListToggleMarker titleMarker (by decide),
        List.foldl_cons,
        applyReplacement_no_match fileListToggleMarker cssMarker (by decide),
        List.foldl_cons,
        applyReplacement_no_match fileListToggleMarker jsUiMarker (by decide),
        List.foldl_cons]
      rw [show applyReplacement fileListToggleMarker (fileListToggleMarker,
            str "diff2htmlUi.fileListToggle(" ++ boolStr true ++ str ");")
          = str "diff2htmlUi.fileListToggle(true);" from by decide]
      rw [foldl_no_match (str "diff2htmlUi.fileListToggle(true);") _
        [fileContentToggleMarker, synchronisedScrollMarker, highlightCodeMarker,
          headerMarker, diffMarker, commitMessageMarker] ?hm2 ?hc2] <;> rfl
  · cases hb : cfg.fileContentToggle with
    | false =>
      simp only [prepareHTML, replacements, hb, Bool.false_eq_true, if_false]
      rw [List.foldl_cons,
        applyReplacement_no_match fileContentToggleMarker titleMarker (by decide),
        List.foldl_cons,
        applyReplacement_no_match fileContentToggleMarker cssMarker (by decide),
        List.foldl_cons,
        applyReplacement_no_match fileContentToggleMarker jsUiMarker (by decide),
        List.foldl_cons,
        applyReplacement_no_match fileContentToggleMarker fileListToggleMarker
          (by decide),
        List.foldl_cons]
      rw [show applyReplacement fileContentToggleMarker (fileContentToggleMarker,
            str "") = str "" from by decide]
      rw [foldl_no_match (str "") _
        [synchronisedScrollMarker, highlightCodeMarker, headerMarker, diffMarker,
          commitMessageMarker] ?hm3 ?hc3] <;> rfl
    | true =>
      simp only [prepareHTML, replacements, hb, if_true]
      rw [List.foldl_cons,
        applyReplacement_no_match fileContentToggleMarker titleMarker (by decide),
        List.foldl_cons,
        applyReplacement_no_match fileContentToggleMarker cssMarker (by decide),
        List.foldl_cons,
        applyReplacement_no_match fileContentToggleMarker jsUiMarker (by decide),
        List.foldl_cons,
        applyReplacement_no_match fileContentToggleMarker fileListToggleMarker
          (by decide),
        List.foldl_cons]
      rw [show applyReplacement fileContentToggleMarker (fileContentToggleMarker,
            str "diff2htmlUi.fileContentToggle();")
          = str "diff2htmlUi.fileContentToggle();" from by decide]
      rw [foldl_no_match (str "diff2htmlUi.fileContentToggle();") _
        [synchronisedScrollMarker, highlightCodeMarker, headerMarker, diffMarker,
          commitMessageMarker] ?hm4 ?hc4] <;> rfl
  · cases hb : cfg.synchronisedScroll with
    | false =>
      simp only [prepareHTML, replacements, hb, Bool.false_eq_true, if_false]
      rw [List.foldl_cons,
        applyReplacement_no_match synchronisedScrollMarker titleMarker (by decide),
        List.foldl_cons,
        applyReplacement_no_match synchronisedScrollMarker cssMarker (by decide),
        List.foldl_cons,
        applyReplacement_no_match synchronisedScrollMarker jsUiMarker (by decide),
        List.foldl_cons,
        applyReplacement_no_match synchronisedScrollMarker fileListToggleMarker
          (by decide),
        List.foldl_cons,
        applyReplacement_no_match synchronisedScrollMarker fileContentToggleMarker
          (by decide),
        List.foldl_cons]
      rw [show applyReplacement synchronisedScrollMarker (synchronisedScrollMarker,
            str "") = str "" from by decide]
      rw [foldl_no_match (str "") _
        [highlightCodeMarker, headerMarker, diffMarker, commitMessageMarker]
        ?hm5 ?hc5] <;> rfl
    | true =>
      simp only [prepareHTML, replacements, hb, if_true]
      rw [List.foldl_cons,
        applyReplacement_no_match synchronisedScrollMarker titleMarker (by decide),
        List.foldl_cons,
        applyReplacement_no_match synchronisedScrollMarker cssMarker (by decide),
        List.foldl_cons,
        applyReplacement_no_match synchronisedScrollMarker jsUiMarker (by decide),
        List.foldl_cons,
        applyReplacement_no_match synchronisedScrollMarker fileListToggleMarker
          (by decide),
        List.foldl_cons,
        applyReplacement_no_match synchronisedScrollMarker fileContentToggleMarker
          (by decide),
        List.foldl_cons]
      rw [show applyReplacement synchronisedScrollMarker (synchronisedScrollMarker,
            str "diff2htmlUi.synchronisedScroll();")
          = str "diff2htmlUi.synchronisedScroll();" from by decide]
      rw [foldl_no_match (str "diff2htmlUi.synchronisedScroll();") _
        [highlightCodeMarker, headerMarker, diffMarker, commitMessageMarker]
        ?hm6 ?hc6] <;> rfl
  · cases hb : cfg.highlightCode with
    | false =>
      simp only [prepareHTML, replacements, hb, Bool.false_eq_true, if_false]
      rw [List.foldl_cons,
        applyReplacement_no_match highlightCodeMarker titleMarker (by decide),
        List.foldl_cons,
        applyReplacement_no_match highlightCodeMarker cssMarker (by decide),
        List.foldl_cons,
        applyReplacement_no_match highlightCodeMarker jsUiMarker (by decide),
        List.foldl_cons,
        applyReplacement_no_match highlightCodeMarker fileListToggleMarker
          (by decide),
        List.foldl_cons,
        applyReplacement_no_match highlightCodeMarker fileContentToggleMarker
          (by decide),
        List.foldl_cons,
        applyReplacement_no_match highlightCodeMarker synchronisedScrollMarker
          (by decide),
        List.foldl_cons]
      rw [show applyReplacement highlightCodeMarker (highlightCodeMarker,
            str "") = str "" from by decide]
      rw [foldl_no_match (str "") _
        [headerMarker, diffMarker, commitMessageMarker] ?hm7 ?hc7] <;> rfl
    | true =>
      simp only [prepareHTML, replacements, hb, if_true]
      rw [List.foldl_cons,
        applyReplacement_no_match highlightCodeMarker titleMarker (by decide),
        List.foldl_cons,
        applyReplacement_no_match highlightCodeMarker cssMarker (by decide),
        List.foldl_cons,
        applyReplacement_no_match highlightCodeMarker jsUiMarker (by decide),
        List.foldl_cons,
        applyReplacement_no_match highlightCodeMarker fileListToggleMarker
          (by decide),
        List.foldl_cons,
        applyReplacement_no_match highlightCodeMarker fileContentToggleMarker
          (by decide),
        List.foldl_cons,
        applyReplacement_no_match highlightCodeMarker synchronisedScrollMarker
          (by decide),
        List.foldl_cons]
      rw [show applyReplacement highlightCodeMarker (highlightCodeMarker,
            str "diff2htmlUi.highlightCode();")
          = str "diff2htmlUi.highlightCode();" from by decide]
      rw [foldl_no_match (str "diff2htmlUi.highlightCode();") _
        [headerMarker, diffMarker, commitMessageMarker] ?hm8 ?hc8] <;> rfl

/-! ### Claim C3 -/

/-- Claim C3: for the empty caller argument list the built vector contains
the default set `-M -C HEAD`; for every non-empty caller list the
built-in defaults are not appended, even when that list does not contain
`--no-color`: the occurrence counts of `-M`, `-C` and `HEAD` in the
result equal their counts in the caller list. -/
theorem generateGitDiffArgs_defaults (g ig : List Str) (hg : g ≠ []) :
    generateGitDiffArgs [] ig
        = [str "diff", str "--no-color"] ++ defaultArgs
          ++ (if 0 < ig.length then str "--" :: ig.map excludePathspec else [])
    ∧ List.count (str "-M") (generateGitDiffArgs g ig) = List.count (str "-M") g
    ∧ List.count (str "-C") (generateGitDiffArgs g ig) = List.count (str "-C") g
    ∧ List.count (str "HEAD") (generateGitDiffArgs g ig)
        = List.count (str "HEAD") g := by
  have hlen : ¬ g.length = 0 := by
    simpa [List.length_eq_zero] using hg
  refine ⟨?_, ?_, ?_, ?_⟩
  · by_cases hi : 0 < ig.length <;>
      simp [generateGitDiffArgs, defaultArgs, hi]
  · rw [count_generateGitDiffArgs (str "-M") g ig (by decide)]
    have e1 : List.count (str "-M") [str "diff"] = 0 := by decide
    have e2 : List.count (str "-M") [str "--no-color"] = 0 := by decide
    have e3 : List.count (str "-M") [str "--"] = 0 := by decide
    simp [hlen, e1, e2, e3]
  · rw [count_generateGitDiffArgs (str "-C") g ig (by decide)]
    have e1 : List.count (str "-C") [str "diff"] = 0 := by decide
    have e2 : List.count (str "-C") [str "--no-color"] = 0 := by decide
    have e3 : List.count (str "-C") [str "--"] = 0 := by decide
    simp [hlen, e1, e2, e3]
  · rw [count_generateGitDiffArgs (str "HEAD") g ig (by decide)]
    have e1 : List.count (str "HEAD") [str "diff"] = 0 := by decide
    have e2 : List.count (str "HEAD") [str "--no-color"] = 0 := by decide
    have e3 : List.count (str "HEAD") [str "--"] = 0 := by decide
    simp [hlen, e1, e2, e3]

/-- Witness for claim C3 at a concrete non-empty caller list. -/
theorem generateGitDiffArgs_defaults_witness :
    (([str "x"] : List Str) ≠ [])
    ∧ generateGitDiffArgs [] [str "p"]
        = [str "diff", str "--no-color"] ++ defaultArgs
          ++ (if 0 < ([str "p"] : List Str).length
              then str "--" :: ([str "p"] : List Str).map excludePathspec else [])
    ∧ List.count (str "-M") (generateGitDiffArgs [str "x"] [str "p"])
        = List.count (str "-M") [str "x"]
    ∧ List.count (str "-C") (generateGitDiffArgs [str "x"] [str "p"])
        = List.count (str "-C") [str "x"]
    ∧ List.count (str "HEAD") (generateGitDiffArgs [str "x"] [str "p"])
        = List.count (str "HEAD") [str "x"] := by
  have hg : ([str "x"] : List Str) ≠ [] := by decide
  have t := generateGitDiffArgs_defaults [str "x"] [str "p"] hg
  exact ⟨hg, t.1, t.2.1, t.2.2.1, t.2.2.2⟩

/-! ### Claim C4 -/

/-- Claim C4 counterexample: a caller list containing `--no-color` twice
yields a vector in which `--no-color` does not occur exactly once. -/
theorem generateGitDiffArgs_no_color_counterexample :
    ([str "--no-color", str "--no-color"] : List Str).contains (str "--no-color")
        = true
    ∧ ¬ List.count (str "--no-color")
        (generateGitDiffArgs [str "--no-color", str "--no-color"] []) = 1 := by
  constructor
  · decide
  · decide

/-- Claim C4, amended: for every caller argument list containing
`--no-color` exactly once, the built vector contains exactly one
occurrence of `--no-color` (the code preserves the caller count and only
adds the flag when it is absent). -/
theorem generateGitDiffArgs_no_color_once (g ig : List Str)
    (h : List.count (str "--no-color") g = 1) :
    List.count (str "--no-color") (generateGitDiffArgs g ig) = 1 := by
  have hmem : str "--no-color" ∈ g := by
    by_contra hn
    rw [List.count_eq_zero.mpr hn] at h
    exact absurd h (by decide)
  have hg : g ≠ [] := by
    intro hnil
    subst hnil
    simp at hmem
  have hlen : ¬ g.length = 0 := by
    simpa [List.length_eq_zero] using hg
  rw [count_generateGitDiffArgs (str "--no-color") g ig (by decide)]
  have e1 : List.count (str "--no-color") [str "diff"] = 0 := by decide
  have e3 : List.count (str "--no-color") [str "--"] = 0 := by decide
  simp [hmem, hlen, h, e1, e3]

/-- Witness for the amended claim C4. -/
theorem generateGitDiffArgs_no_color_once_witness :
    List.count (str "--no-color") ([str "--no-color"] : List Str) = 1
    ∧ List.count (str "--no-color")
        (generateGitDiffArgs [str "--no-color"] []) = 1 := by
  have h : List.count (str "--no-color") ([str "--no-color"] : List Str) = 1 := by
    decide
  exact ⟨h, generateGitDiffArgs_no_color_once [str "--no-color"] [] h⟩

/-! ### Claim C5 -/

/-- Claim C5 counterexample: with a non-empty exclusion list, a caller
list already containing `--` twice yields a vector in which `--` does not
occur exactly once. -/
theorem generateGitDiffArgs_separator_counterexample :
    (([str "x"] : List Str) ≠ [])
    ∧ ¬ List.count (str "--")
        (generateGitDiffArgs [str "--", str "--"] [str "x"]) = 1 := by
  constructor
  · decide
  · decide

/-- Claim C5, amended: for every caller argument list containing `--` at
most once and every non-empty exclusion list, the built vector contains
the `--` separator exactly once, and it ends with one `:(exclude)<path>`
entry per exclusion path, in input order. -/
theorem generateGitDiffArgs_excludes (g ig : List Str) (hig : ig ≠ [])
    (hsep : List.count (str "--") g ≤ 1) :
    List.count (str "--") (generateGitDiffArgs g ig) = 1
    ∧ ∃ pre, generateGitDiffArgs g ig = pre ++ ig.map excludePathspec := by
  have hlen : 0 < ig.length := List.length_pos.mpr hig
  constructor
  · rw [count_generateGitDiffArgs (str "--") g ig (by decide)]
    have e1 : List.count (str "--") [str "diff"] = 0 := by decide
    have e2 : List.count (str "--") [str "--no-color"] = 0 := by decide
    have e4 : List.count (str "--") defaultArgs = 0 := by decide
    have e5 : List.count (str "--") [str "--"] = 1 := by decide
    by_cases hmem : str "--" ∈ g
    · have hne : ¬ List.count (str "--") g = 0 :=
        fun hz => (List.count_eq_zero.mp hz) hmem
      simp [hlen, hmem, e1, e2, e4, e5]
      omega
    · have hz : List.count (str "--") g = 0 := List.count_eq_zero.mpr hmem
      simp [hlen, hmem, e1, e2, e4, e5, hz]
  · simp only [generateGitDiffArgs]
    rw [if_pos hlen]
    exact ⟨_, rfl⟩

/-- Witness for the amended claim C5. -/
theorem generateGitDiffArgs_excludes_witness :
    List.count (str "--") (generateGitDiffArgs [str "a"] [str "x"]) = 1
    ∧ ∃ pre, generateGitDiffArgs [str "a"] [str "x"]
        = pre ++ ([str "x"] : List Str).map excludePathspec := by
  exact generateGitDiffArgs_excludes [str "a"] [str "x"] (by decide) (by decide)

/-! ### Claim C1 -/

/-- Claim C1 counterexample: for a template containing all ten marker
literals and a configuration whose page title is the commit-message
marker, the substituted document still contains an original marker
literal (the inserted page title is re-expanded by the later
commit-message rule, and the original commit-message marker survives),
refuting the claim as universally stated. -/
theorem prepareHTML_substitution_counterexample :
    (markersList.all fun m => containsSub m cexTemplate) = true
    ∧ containsSub commitMessageMarker
        (prepareHTML cexTemplate (str "D") cexConfig (some ColorScheme.light)
          (str "C") (str "J")) = true := by
  constructor
  · decide
  · decide

/-- Claim C1, amended: for every template of the form
`t0 ++ M1 ++ t1 ++ ... ++ M10 ++ t10` (the ten markers in substitution
order) and every configuration such that, at each substitution step, the
marker being replaced does not occur in the document strictly before its
template position (the decidable condition `spliceOK`; it excludes a
replacement value reintroducing a marker), `prepareHTML` returns exactly
`t0 ++ V1 ++ t1 ++ ... ++ V10 ++ t10`: every supplied replacement value —
page title, page header, commit message, rendered diff, css bundle, js
bundle, including values containing `$&` and `$1` — is inserted verbatim
and contained in the output, no value is re-expanded by a later rule, and
any marker absent from the spliced result is absent from the output. -/
theorem prepareHTML_exact_substitution
    (t0 t1 t2 t3 t4 t5 t6 t7 t8 t9 t10 d css js : Str)
    (cfg : Configuration) (cs : Option ColorScheme)
    (h : spliceOK t0 (replacements d cfg cs css js)
        [t1, t2, t3, t4, t5, t6, t7, t8, t9, t10] = true) :
    prepareHTML
        (t0 ++ spliceTemplate (replacements d cfg cs css js)
          [t1, t2, t3, t4, t5, t6, t7, t8, t9, t10])
        d cfg cs css js
      = t0 ++ spliceResult (replacements d cfg cs css js)
          [t1, t2, t3, t4, t5, t6, t7, t8, t9, t10]
    ∧ containsSub cfg.pageTitle
        (prepareHTML
          (t0 ++ spliceTemplate (replacements d cfg cs css js)
            [t1, t2, t3, t4, t5, t6, t7, t8, t9, t10])
          d cfg cs css js) = true
    ∧ containsSub cfg.pageHeader
        (prepareHTML
          (t0 ++ spliceTemplate (replacements d cfg cs css js)
            [t1, t2, t3, t4, t5, t6, t7, t8, t9, t10])
          d cfg cs css js) = true
    ∧ containsSub cfg.commitMessage
        (prepareHTML
          (t0 ++ spliceTemplate (replacements d cfg cs css js)
            [t1, t2, t3, t4, t5, t6, t7, t8, t9, t10])
          d cfg cs css js) = true
    ∧ containsSub d
        (prepareHTML
          (t0 ++ spliceTemplate (replacements d cfg cs css js)
            [t1, t2, t3, t4, t5, t6, t7, t8, t9, t10])
          d cfg cs css js) = true
    ∧ containsSub css
        (prepareHTML
          (t0 ++ spliceTemplate (replacements d cfg cs css js)
            [t1, t2, t3, t4, t5, t6, t7, t8, t9, t10])
          d cfg cs css js) = true
    ∧ containsSub js
        (prepareHTML
          (t0 ++ spliceTemplate (replacements d cfg cs css js)
            [t1, t2, t3, t4, t5, t6, t7, t8, t9, t10])
          d cfg cs css js) = true
    ∧ ∀ m, m ∈ markersList →
        containsSub m
          (t0 ++ spliceResult (replacements d cfg cs css js)
            [t1, t2, t3, t4, t5, t6, t7, t8, t9, t10]) = false →
        containsSub m
          (prepareHTML
            (t0 ++ spliceTemplate (replacements d cfg cs css js)
              [t1, t2, t3, t4, t5, t6, t7, t8, t9, t10])
            d cfg cs css js) = false := by
  have e : prepareHTML
      (t0 ++ spliceTemplate (replacements d cfg cs css js)
        [t1, t2, t3, t4, t5, t6, t7, t8, t9, t10])
      d cfg cs css js
      = t0 ++ spliceResult (replacements d cfg cs css js)
          [t1, t2, t3, t4, t5, t6, t7, t8, t9, t10] :=
    foldl_splice (replacements d cfg cs css js)
      [t1, t2, t3, t4, t5, t6, t7, t8, t9, t10] t0 h
  refine ⟨e, ?_, ?_, ?_, ?_, ?_, ?_, ?_⟩
  · rw [e]
    simp only [replacements, spliceResult, List.headD_cons, List.tail_cons,
      List.append_assoc, List.append_nil]
    repeat
      first
      | exact containsSub_self_append _ _
      | apply containsSub_append_left
  · rw [e]
    simp only [replacements, spliceResult, List.headD_cons, List.tail_cons,
      List.append_assoc, List.append_nil]
    repeat
      first
      | exact containsSub_self_append _ _
      | apply containsSub_append_left
  · rw [e]
    simp only [replacements, spliceResult, List.headD_cons, List.tail_cons,
      List.append_assoc, List.append_nil]
    repeat
      first
      | exact containsSub_self_append _ _
      | apply containsSub_append_left
  · rw [e]
    simp only [replacements, spliceResult, List.headD_cons, List.tail_cons,
      List.append_assoc, List.append_nil]
    repeat
      first
      | exact containsSub_self_append _ _
      | apply containsSub_append_left
  · rw [e]
    simp only [replacements, spliceResult, List.headD_cons, List.tail_cons,
      List.append_assoc, List.append_nil]
    repeat
      first
      | exact containsSub_self_append _ _
      | apply containsSub_append_left
  · rw [e]
    simp only [replacements, spliceResult, List.headD_cons, List.tail_cons,
      List.append_assoc, List.append_nil]
    repeat
      first
      | exact containsSub_self_append _ _
      | apply containsSub_append_left
  · intro m _ hfree
    rw [e]
    exact hfree

/-- Witness for the amended claim C1, at a concrete template and a
configuration whose values contain `$&` and `$1`: the first-occurrence
condition holds, the output is the exact splice, the page title and the
css payload occur verbatim in the output, and the title marker is gone. -/
theorem prepareHTML_exact_substitution_witness :
    spliceOK wT0 wTable wSegs = true
    ∧ prepareHTML wTemplate (str "<d>$&</d>") wConfig (some ColorScheme.light)
        (str "css-$1") (str "js-$&") = wResult
    ∧ containsSub wConfig.pageTitle
        (prepareHTML wTemplate (str "<d>$&</d>") wConfig
          (some ColorScheme.light) (str "css-$1") (str "js-$&")) = true
    ∧ containsSub (str "css-$1")
        (prepareHTML wTemplate (str "<d>$&</d>") wConfig
          (some ColorScheme.light) (str "css-$1") (str "js-$&")) = true
    ∧ containsSub titleMarker
        (prepareHTML wTemplate (str "<d>$&</d>") wConfig
          (some ColorScheme.light) (str "css-$1") (str "js-$&")) = false := by
  have h : spliceOK wT0 wTable wSegs = true := by decide
  have t := prepareHTML_exact_substitution wT0 (str "|1|") (str "|2|")
    (str "|3|") (str "|4|") (str "|5|") (str "|6|") (str "|7|") (str "|8|")
    (str "|9|") (str "</html>") (str "<d>$&</d>") (str "css-$1") (str "js-$&")
    wConfig (some ColorScheme.light) h
  exact ⟨h, t.1, t.2.1, t.2.2.2.2.2.1,
    t.2.2.2.2.2.2.2 titleMarker (by simp [markersList]) (by decide)⟩

end Diff2HtmlCli
